import Mathlib

/-!
Verification of the client-side behaviors of the BLCK-B.github.io static
site: the scroll-driven style controller and the `announcementPreview`
remote snippet pipeline.  JavaScript strings are modelled as `List Char`
(one entry per code unit); CSS numeric values as `ℚ`.
-/

/-- The literal three-dot ellipsis marker appended by the truncation step. -/
def ellipsis : List Char := "...".toList

/-- The truncation step of `announcementPreview` (src/scripts.js lines 30-34,
src/unnamed/part_000 lines 31-35), with the character budget (80 or 135 in
the two page variants) as a parameter:
`slice(0, budget)`, then drop the final character when it is a space
(`charAt(length - 1) === " "` is false on the empty string, matching
`getLast? = some ' '`), then append `"..."`. -/
def announcementTruncate (text : List Char) (budget : Nat) : List Char :=
  let shortenedContent := text.take budget
  let shortenedContent :=
    if shortenedContent.getLast? = some ' ' then shortenedContent.dropLast
    else shortenedContent
  shortenedContent ++ ellipsis

theorem announcementTruncate_eq (text : List Char) (budget : Nat) :
    announcementTruncate text budget =
      (if (text.take budget).getLast? = some ' ' then (text.take budget).dropLast
       else text.take budget) ++ ellipsis := rfl

/-- Claim C1: for every text input and truncation budget, the snippet
produced by the truncation step of `announcementPreview` has length at most
budget + 3 and always ends in the three-dot ellipsis marker. -/
theorem truncate_len_le_and_ends_ellipsis (text : List Char) (budget : Nat) :
    (announcementTruncate text budget).length ≤ budget + 3 ∧
      List.IsSuffix ellipsis (announcementTruncate text budget) := by
  rw [announcementTruncate_eq]
  have hel : ellipsis.length = 3 := by decide
  constructor
  · have h1 := List.length_take budget text
    split
    · simp only [List.length_append, List.length_dropLast, h1, hel]
      omega
    · simp only [List.length_append, h1, hel]
      omega
  · exact List.suffix_append _ _

/-- Claim C2 as stated is false: it asserts the drop decision is made by the
character at position budget - 1 of the input for every input, but for
`"Hello "` with budget 10 position 9 does not hold a space (it does not
exist), yet the code still drops the trailing space of the (short) prefix. -/
theorem truncate_boundary_space_rule_cex :
    ("Hello ".toList)[9]? ≠ some ' ' ∧
      announcementTruncate "Hello ".toList 10 ≠ "Hello ".toList.take 10 ++ ellipsis := by
  decide

/-- Claim C2 (amended): for every text input whose length is at least the
budget (and a positive budget), the truncation step drops exactly one
character before appending the ellipsis when the character at position
budget - 1 of the input is a space, and drops no character otherwise; in
particular `"Hello world"` with budget 5 yields `"Hello..."` and `"Hello "`
with budget 6 yields `"Hello..."`. -/
theorem truncate_boundary_space_rule (text : List Char) (budget : Nat)
    (h1 : 1 ≤ budget) (h2 : budget ≤ text.length) :
    announcementTruncate text budget =
      (if text[budget - 1]? = some ' ' then text.take (budget - 1)
       else text.take budget) ++ ellipsis ∧
      announcementTruncate "Hello world".toList 5 = "Hello...".toList ∧
      announcementTruncate "Hello ".toList 6 = "Hello...".toList := by
  refine ⟨?_, by decide, by decide⟩
  obtain ⟨m, rfl⟩ : ∃ m, budget = m + 1 := ⟨budget - 1, by omega⟩
  have hlt : m < text.length := by omega
  have hsplit : text.take (m + 1) = text.take m ++ [text[m]] := by
    rw [List.take_succ, List.getElem?_eq_getElem hlt]
    rfl
  rw [announcementTruncate_eq, hsplit, List.getLast?_concat, List.dropLast_concat]
  simp only [Nat.add_sub_cancel, List.getElem?_eq_getElem hlt]

/-- Witness for the amended claim C2 at text `"Hello world"`, budget 5. -/
theorem truncate_boundary_space_rule_witness :
    (1 ≤ 5 ∧ 5 ≤ "Hello world".toList.length) ∧
      (announcementTruncate "Hello world".toList 5 =
        (if ("Hello world".toList)[5 - 1]? = some ' ' then "Hello world".toList.take (5 - 1)
         else "Hello world".toList.take 5) ++ ellipsis ∧
       announcementTruncate "Hello world".toList 5 = "Hello...".toList ∧
       announcementTruncate "Hello ".toList 6 = "Hello...".toList) :=
  ⟨⟨by decide, by decide⟩,
    truncate_boundary_space_rule "Hello world".toList 5 (by decide) (by decide)⟩

/-- Claim C10: for every text input strictly shorter than the budget, the
truncation step operates on the whole input and applies the trailing-space
check to the input's own last character: the snippet is the input, minus one
character when it ends in a space, followed by the ellipsis; the empty text
yields exactly `"..."`. -/
theorem truncate_short_input (text : List Char) (budget : Nat)
    (h : text.length < budget) :
    announcementTruncate text budget =
      (if text.getLast? = some ' ' then text.dropLast else text) ++ ellipsis ∧
      announcementTruncate [] budget = ellipsis := by
  constructor
  · rw [announcementTruncate_eq, List.take_of_length_le (le_of_lt h)]
  · rw [announcementTruncate_eq]
    simp

/-- Witness for claim C10 at text `"Hi "`, budget 80. -/
theorem truncate_short_input_witness :
    ("Hi ".toList.length < 80) ∧
      (announcementTruncate "Hi ".toList 80 =
        (if "Hi ".toList.getLast? = some ' ' then "Hi ".toList.dropLast
         else "Hi ".toList) ++ ellipsis ∧
       announcementTruncate [] 80 = ellipsis) :=
  ⟨by decide, truncate_short_input "Hi ".toList 80 (by decide)⟩

/-!
The scroll-driven style controller.  Each scroll event reads the current
scroll offset and the viewport width and writes style properties of the
header elements; the styles written by one invocation are modelled as a
record of optional values (`none` = the handler leaves that property
untouched).
-/

/-- The styles one scroll-listener invocation writes: opacity of the
`.topimg` element, scale transform of the `.mobilecont-image` element and
pixel height of the `.mobilecont-content` element. -/
structure HeaderStyles where
  topImageOpacity : Option ℚ
  headerImageScale : Option ℚ
  headerContentHeight : Option ℚ
deriving DecidableEq, Repr

/-- The scroll listener of the fade-only page variant (src/scripts.js lines
2-8): above the 768-pixel breakpoint set opacity to
`1 - scrollPosition / 200`; below it, do nothing. -/
def scrollListenerFadeOnly (innerWidth scrollPosition : ℚ) : HeaderStyles :=
  if innerWidth ≥ 768 then
    { topImageOpacity := some (1 - scrollPosition / 200),
      headerImageScale := none, headerContentHeight := none }
  else
    { topImageOpacity := none, headerImageScale := none, headerContentHeight := none }

/-- The scroll listener of the mobile-aware page variant
(src/unnamed/part_000 lines 2-17): above the breakpoint, the same fade;
below it, a scale factor `max(0.8, 1 - scrollPosition * 0)` and a height
`max(60, 200 - scrollPosition * 0.5)`. -/
def scrollListenerMobile (innerWidth scrollPosition : ℚ) : HeaderStyles :=
  if innerWidth ≥ 768 then
    { topImageOpacity := some (1 - scrollPosition / 200),
      headerImageScale := none, headerContentHeight := none }
  else
    { topImageOpacity := none,
      headerImageScale := some (max 0.8 (1 - scrollPosition * 0)),
      headerContentHeight := some (max 60 (200 - scrollPosition * 0.5)) }

/-- Claim C6: in wide-viewport mode (width at least 768) both scroll-handler
variants assign opacity `1 - offset/200`, unclamped: offset 0 yields 1,
offset 200 yields 0 and offset 400 yields -1. -/
theorem scroll_wide_opacity (w p : ℚ) (h : 768 ≤ w) :
    (scrollListenerFadeOnly w p).topImageOpacity = some (1 - p / 200) ∧
      (scrollListenerMobile w p).topImageOpacity = some (1 - p / 200) ∧
      (scrollListenerMobile w 0).topImageOpacity = some 1 ∧
      (scrollListenerMobile w 200).topImageOpacity = some 0 ∧
      (scrollListenerMobile w 400).topImageOpacity = some (-1) := by
  simp only [scrollListenerFadeOnly, scrollListenerMobile, ge_iff_le, if_pos h]
  norm_num

/-- Witness for claim C6 at width 1024, offset 50. -/
theorem scroll_wide_opacity_witness :
    ((768 : ℚ) ≤ 1024) ∧
      ((scrollListenerFadeOnly 1024 50).topImageOpacity = some (1 - 50 / 200) ∧
       (scrollListenerMobile 1024 50).topImageOpacity = some (1 - 50 / 200) ∧
       (scrollListenerMobile 1024 0).topImageOpacity = some 1 ∧
       (scrollListenerMobile 1024 200).topImageOpacity = some 0 ∧
       (scrollListenerMobile 1024 400).topImageOpacity = some (-1)) :=
  ⟨by norm_num, scroll_wide_opacity 1024 50 (by norm_num)⟩

/-- Claim C7: in narrow-viewport mode (width below 768) the mobile-aware
scroll handler assigns height `max(60, 200 - offset*0.5)`: offset 0 yields
200, offset 280 yields 60 (floor reached), offset 1000 still yields 60. -/
theorem scroll_narrow_height (w p : ℚ) (h : w < 768) :
    (scrollListenerMobile w p).headerContentHeight = some (max 60 (200 - p * 0.5)) ∧
      (scrollListenerMobile w 0).headerContentHeight = some 200 ∧
      (scrollListenerMobile w 280).headerContentHeight = some 60 ∧
      (scrollListenerMobile w 1000).headerContentHeight = some 60 := by
  simp only [scrollListenerMobile, ge_iff_le, if_neg (not_le.mpr h)]
  norm_num [max_def]

/-- Witness for claim C7 at width 375, offset 40. -/
theorem scroll_narrow_height_witness :
    ((375 : ℚ) < 768) ∧
      ((scrollListenerMobile 375 40).headerContentHeight = some (max 60 (200 - 40 * 0.5)) ∧
       (scrollListenerMobile 375 0).headerContentHeight = some 200 ∧
       (scrollListenerMobile 375 280).headerContentHeight = some 60 ∧
       (scrollListenerMobile 375 1000).headerContentHeight = some 60) :=
  ⟨by norm_num, scroll_narrow_height 375 40 (by norm_num)⟩

/-- Claim C8: for every scroll offset, the scale factor computed in the
narrow-viewport branch, `max(0.8, 1 - offset*0)`, is the constant 1, so the
handler applies scale 1 regardless of scroll position. -/
theorem scroll_narrow_scale_constant_one (w p : ℚ) (h : w < 768) :
    max (0.8 : ℚ) (1 - p * 0) = 1 ∧
      (scrollListenerMobile w p).headerImageScale = some 1 := by
  have h1 : max (0.8 : ℚ) (1 - p * 0) = 1 := by norm_num [max_def]
  refine ⟨h1, ?_⟩
  simp only [scrollListenerMobile, ge_iff_le, if_neg (not_le.mpr h), h1]

/-- Witness for claim C8 at width 375, offset 9999. -/
theorem scroll_narrow_scale_constant_one_witness :
    ((375 : ℚ) < 768) ∧
      (max (0.8 : ℚ) (1 - 9999 * 0) = 1 ∧
       (scrollListenerMobile 375 9999).headerImageScale = some 1) :=
  ⟨by norm_num, scroll_narrow_scale_constant_one 375 9999 (by norm_num)⟩

/-!
The `announcementPreview` pipeline (src/scripts.js lines 11-51,
src/unnamed/part_000 lines 19-52).  The browser-provided pieces are
modelled explicitly: the outcome of `fetch` + `response.text()` +
`innerHTML` parsing is either a transport error (the only way `fetch`
rejects — a non-2xx HTTP response resolves normally and its status is
never read by the source) or a response carrying a status code and the
parsed document's three `querySelector` results; the live page is the
child list of the `.announcements` mount point (`none` when the mount
point is absent) plus the console-error log.
-/

/-- A DOM element extracted from the fetched page, reduced to the one
property the pipeline reads or writes: its `textContent`. -/
structure FragNode where
  textContent : List Char
deriving DecidableEq, Repr

/-- The `querySelector` results on the parsed fetched document: the
`.antitle`, `.andate` and `.antext` lookups, each possibly absent. -/
structure FetchedDoc where
  titleElement : Option FragNode
  dateElement : Option FragNode
  textElement : Option FragNode
deriving DecidableEq, Repr

/-- The outcome of `await fetch(url)` followed by `await response.text()`
and the `innerHTML` parse: a transport error rejects; any HTTP response,
2xx or not, resolves with its status and parsed body. -/
inductive FetchOutcome where
  | transportError : FetchOutcome
  | response : Nat → FetchedDoc → FetchOutcome
deriving DecidableEq, Repr

/-- The runtime error that can escape the try block: the rejection of the
fetch, reading `textContent` of a null `querySelector` result (also
`appendChild` called on a null mount point), or `appendChild` called with
a null argument. -/
inductive RunError where
  | fetchError : RunError
  | nullDeref : RunError
  | appendNullChild : RunError
deriving DecidableEq, Repr

/-- A node appended into the preview container, tagged by which marker
lookup produced it. -/
inductive ChildNode where
  | antitle : FragNode → ChildNode
  | andate : FragNode → ChildNode
  | antext : FragNode → ChildNode
deriving DecidableEq, Repr

/-- The class name shared by the text node and its wrapping container. -/
def antextClass : List Char := "antext".toList

/-- The `<p>` display container assembled by the pipeline. -/
structure PreviewContainer where
  classes : List (List Char)
  children : List ChildNode
deriving DecidableEq, Repr

/-- One `console.error` record. -/
structure ConsoleEntry where
  message : List Char
  err : RunError
deriving DecidableEq, Repr

/-- The `console.error("announcement preview error: ", error)` entry. -/
def previewErrorEntry (e : RunError) : ConsoleEntry :=
  { message := "announcement preview error: ".toList, err := e }

/-- The page state the pipeline can observe or mutate: the children of the
`.announcements` mount point (`none` when that element is absent) and the
console log. -/
structure PageState where
  mount : Option (List PreviewContainer)
  log : List ConsoleEntry
deriving DecidableEq, Repr

/-- The body of the try block of `announcementPreview`, after the fetch
resolved to a parsed document, in source order: read
`textElement.textContent` (null dereference when `.antext` is absent),
truncate it, build the `<p class="antext">` container, append the title,
date and rewritten text nodes (`appendChild` throws when `.antitle` or
`.andate` is absent), then append the container to the `.announcements`
mount point (null dereference when it is absent).  Returns the new child
list of the mount point. -/
def announcementPreviewTry (doc : FetchedDoc) (budget : Nat)
    (mount : Option (List PreviewContainer)) :
    Except RunError (List PreviewContainer) :=
  match doc.textElement with
  | none => .error .nullDeref
  | some textElement =>
    let shortenedContent := announcementTruncate textElement.textContent budget
    match doc.titleElement with
    | none => .error .appendNullChild
    | some titleElement =>
      match doc.dateElement with
      | none => .error .appendNullChild
      | some dateElement =>
        let displayContainer : PreviewContainer :=
          { classes := [antextClass],
            children := [ChildNode.antitle titleElement, ChildNode.andate dateElement,
                         ChildNode.antext { textContent := shortenedContent }] }
        match mount with
        | none => .error .nullDeref
        | some targetChildren => .ok (targetChildren ++ [displayContainer])

/-- One run of `announcementPreview` over an initial page state: a
transport error, or any error thrown inside the try block, is caught and
logged; a successful run replaces the mount point's child list. -/
def announcementPreview (outcome : FetchOutcome) (budget : Nat)
    (st : PageState) : PageState :=
  match outcome with
  | .transportError => { st with log := st.log ++ [previewErrorEntry .fetchError] }
  | .response _status doc =>
    match announcementPreviewTry doc budget st.mount with
    | .ok newChildren => { st with mount := some newChildren }
    | .error e => { st with log := st.log ++ [previewErrorEntry e] }

/-- A fetched document carrying all three markers. -/
def sampleDoc : FetchedDoc :=
  { titleElement := some { textContent := "Title".toList },
    dateElement := some { textContent := "2024-01-01".toList },
    textElement := some { textContent := "Hello world".toList } }

/-- A fetched document missing the `.antitle` marker. -/
def noTitleDoc : FetchedDoc :=
  { titleElement := none,
    dateElement := some { textContent := "2024-01-01".toList },
    textElement := some { textContent := "Hello world".toList } }

/-- A page whose `.announcements` mount point exists and is empty, with an
empty console log. -/
def sampleState : PageState := { mount := some [], log := [] }

/-- Claim C4: a failed fetch (transport error) performs zero DOM mutation
at the mount point and produces exactly one logged diagnostic entry. -/
theorem fetch_failure_no_dom_mutation (budget : Nat) (st : PageState) :
    (announcementPreview .transportError budget st).mount = st.mount ∧
      (announcementPreview .transportError budget st).log
        = st.log ++ [previewErrorEntry RunError.fetchError] :=
  ⟨rfl, rfl⟩

/-- Claim C3 as stated is false: it counts a non-2xx response status as a
fetch failure, but `fetch` only rejects on transport errors and the source
never reads the status, so a 404 response with a well-formed body is
processed like a success: nothing is logged and the preview is mounted. -/
theorem fetch_nonok_status_cex :
    (announcementPreview (.response 404 sampleDoc) 80 sampleState).log
        = sampleState.log ∧
      (announcementPreview (.response 404 sampleDoc) 80 sampleState).mount
        ≠ sampleState.mount := by
  decide

/-- Claim C3 (amended): a transport error during the fetch results in a
FetchError-class failure that is caught and logged, with no retry and no
partial UI update; a non-2xx response status does not fail the fetch step —
the response body is processed exactly as for a 200 response, since the
source never reads the status. -/
theorem fetch_failure_logged_status_ignored (budget status : Nat)
    (doc : FetchedDoc) (st : PageState) :
    announcementPreview .transportError budget st
        = { st with log := st.log ++ [previewErrorEntry RunError.fetchError] } ∧
      announcementPreview (.response status doc) budget st
        = announcementPreview (.response 200 doc) budget st :=
  ⟨rfl, rfl⟩

/-- Claim C5: when any of the three required markers is absent from the
fetched document, the run fails with a null-use error (never the fetch
error class), caught at the top level: the mount point is unchanged, no
preview is mounted, and the only effect is one diagnostic log entry. -/
theorem missing_marker_contained (status budget : Nat) (doc : FetchedDoc)
    (st : PageState)
    (h : doc.titleElement = none ∨ doc.dateElement = none ∨
      doc.textElement = none) :
    ∃ e : RunError, e ≠ RunError.fetchError ∧
      announcementPreview (.response status doc) budget st
        = { st with log := st.log ++ [previewErrorEntry e] } := by
  obtain ⟨t, d, x⟩ := doc
  rcases x with _ | x
  · exact ⟨.nullDeref, by decide, rfl⟩
  rcases t with _ | t
  · exact ⟨.appendNullChild, by decide, rfl⟩
  rcases d with _ | d
  · exact ⟨.appendNullChild, by decide, rfl⟩
  simp at h

/-- Witness for claim C5: a document missing the title marker. -/
theorem missing_marker_contained_witness :
    (noTitleDoc.titleElement = none ∨ noTitleDoc.dateElement = none ∨
        noTitleDoc.textElement = none) ∧
      ∃ e : RunError, e ≠ RunError.fetchError ∧
        announcementPreview (.response 200 noTitleDoc) 80 sampleState
          = { sampleState with
              log := sampleState.log ++ [previewErrorEntry e] } :=
  ⟨Or.inl rfl,
    missing_marker_contained 200 80 noTitleDoc sampleState (Or.inl rfl)⟩

/-- Claim C9: a successful run appends exactly one new node to the live
DOM: a preview container, carrying the reused `antext` class, whose
children are the title node, the date node, then the truncated text node in
that order, appended as the last child of the mount point; the log and the
rest of the page state are untouched. -/
theorem successful_run_appends_one_node (status budget : Nat)
    (titleElement dateElement textElement : FragNode)
    (children : List PreviewContainer) (lg : List ConsoleEntry) :
    announcementPreview
        (.response status
          { titleElement := some titleElement, dateElement := some dateElement,
            textElement := some textElement })
        budget { mount := some children, log := lg }
      = { mount := some (children ++
            [{ classes := [antextClass],
               children := [ChildNode.antitle titleElement,
                            ChildNode.andate dateElement,
                            ChildNode.antext
                              { textContent := announcementTruncate
                                  textElement.textContent budget }] }]),
          log := lg } :=
  rfl
